import Mathlib

/-! # House-price pipeline: verification of the preprocessing and model wrapper

Shallow embedding of `src/data_preprocessing.py` (DataPreprocessor),
`src/model.py` (HousePriceModel), the prediction path of `src/gui.py`
(PredictionGUI.predict) and the pipeline of `main.py`.

Pandas/numpy float arithmetic is idealised over exact numbers: raw table
cells carry ℚ, and values move to ℝ where standardisation introduces
square roots.  Library calls (sklearn, joblib, pandas) are embedded by
their documented semantics at the data shapes this program feeds them.
-/

namespace HousePrice

/-- Python exception kinds raised along the pipeline, named after the spec's
error taxonomy: a missing-column KeyError is InvalidInput, a failed joblib
deserialisation is CorruptState, a wrong-arity call is TypeError, an sklearn
shape-validation failure is ValueError, and predicting with an unfitted
estimator is NotFitted. -/
inductive PyError where
  | invalidInput
  | corruptState
  | typeError
  | valueError
  | notFitted
  deriving DecidableEq

/-- A raw pandas cell: a numeric value, a string token, or a missing value
(NaN).  Exact rationals stand in for Python floats/ints. -/
inductive Cell where
  | num (q : ℚ)
  | str (s : String)
  | na
  deriving DecidableEq

/-- A pandas column is its list of cells, one per row. -/
abbrev Col := List Cell

/-- A pandas DataFrame: ordered named columns. -/
abbrev DataFrame := List (String × Col)

/-- A fully numeric DataFrame, as produced by `DataPreprocessor.preprocess`
after encoding and standard scaling. -/
abbrev NumDataFrame := List (String × List ℝ)

/-- The effect of `df.fillna(0)` on one cell: missing values become 0. -/
def Cell.fill0 : Cell → Cell
  | .na => .num 0
  | c => c

/-- `df = df.fillna(0)` in `DataPreprocessor.preprocess`. -/
def DataFrame.fillna (df : DataFrame) : DataFrame :=
  df.map (fun p => (p.1, p.2.map Cell.fill0))

/-- Whether a cell is a Python string. -/
def Cell.isStr : Cell → Bool
  | .str _ => true
  | _ => false

/-- A column has pandas dtype `object` (is selected by
`select_dtypes(include=[ 0bject ])`, i.e. is categorical for the code) when
it holds at least one string token. -/
def Col.isObject (c : Col) : Bool := c.any Cell.isStr

/-- The string pandas' `astype(str)` produces for a cell.  For strings it is
the string itself; numbers render via their rational representation (for the
mixed columns this only influences the sort order of the encoder classes,
which no claim depends on); NaN renders as nan, but `preprocess` only applies
this after `fillna`, so that branch is unreachable there. -/
def Cell.toPyStr : Cell → String
  | .str s => s
  | .num q => if q.den = 1 then toString q.num else toString q.num ++ ("/") ++ toString q.den
  | .na => ("nan")

/-- Insert a string into a sorted duplicate-free list, keeping it sorted and
duplicate-free. -/
def insertSortedStr (x : String) : List String → List String
  | [] => [x]
  | y :: ys =>
    if x < y then x :: y :: ys
    else if x = y then y :: ys
    else y :: insertSortedStr x ys

/-- `LabelEncoder.fit` / `np.unique`: the sorted list of distinct values. -/
def LabelEncoder.fit (xs : List String) : List String :=
  xs.foldr insertSortedStr []

/-- `LabelEncoder.transform`: replace each token by the index of its class
in the sorted class list. -/
def LabelEncoder.transform (classes : List String) (xs : List String) : List ℚ :=
  xs.map (fun x => ((classes.indexOf x : ℕ) : ℚ))

/-- The mutable state of a `DataPreprocessor`:
`label_encoders` is the dict from column name to the classes of its
`LabelEncoder`; `scaler` is the `StandardScaler`, holding (once fitted) the
per-column `(feature name, mean_, scale_)` triples. -/
structure DataPreprocessor where
  label_encoders : List (String × List String)
  scaler : Option (List (String × ℝ × ℝ))

/-- `DataPreprocessor.__init__`: empty encoder dict, unfitted scaler. -/
def DataPreprocessor.init : DataPreprocessor := ⟨[], none⟩

/-- Python dict assignment `d[k] = v`: replace in place if the key exists
(keeping its position), otherwise append. -/
def assocSet (k : String) (v : List String) : List (String × List String) → List (String × List String)
  | [] => [(k, v)]
  | p :: rest => if p.1 = k then (k, v) :: rest else p :: assocSet k v rest

/-- Python dict lookup on the encoder dict. -/
def lookupEnc : List (String × List String) → String → Option (List String)
  | [], _ => none
  | p :: rest, name => if name = p.1 then some p.2 else lookupEnc rest name

/-- The categorical-encoding loop of `preprocess`:
for every column of dtype object, fit-or-create the column's `LabelEncoder`
(net state effect: the dict entry is set to the freshly fitted classes, since
`fit_transform` refits) and replace the column by the integer codes. -/
def encodeColumns : List (String × List String) → DataFrame → List (String × List String) × DataFrame
  | encs, [] => (encs, [])
  | encs, p :: rest =>
    if Col.isObject p.2 then
      let xs := p.2.map Cell.toPyStr
      let classes := LabelEncoder.fit xs
      let r := encodeColumns (assocSet p.1 classes encs) rest
      (r.1, (p.1, (LabelEncoder.transform classes xs).map Cell.num) :: r.2)
    else
      let r := encodeColumns encs rest
      (r.1, p :: r.2)

/-- Numeric view of a cell.  After `fillna` and label encoding every cell is
numeric, so the str/na branches are unreachable on the tables the scaler
sees. -/
noncomputable def Cell.toReal : Cell → ℝ
  | .num q => (q : ℝ)
  | .str _ => 0
  | .na => 0

/-- Mean of a column, `np.mean`. -/
noncomputable def colMean (xs : List ℝ) : ℝ := xs.sum / xs.length

/-- Population variance of a column, `np.var` (ddof = 0, as used by
`StandardScaler`). -/
noncomputable def colVar (xs : List ℝ) : ℝ :=
  ((xs.map (fun x => (x - colMean xs) ^ 2)).sum) / xs.length

/-- sklearn `_handle_zeros_in_scale`: a zero scale is replaced by 1 so that
constant columns are left centred but not divided by zero. -/
noncomputable def handleZeros (s : ℝ) : ℝ := if s = 0 then 1 else s

/-- `StandardScaler`'s `scale_` for one column: square root of the
population variance, with zeros replaced by 1. -/
noncomputable def colScale (xs : List ℝ) : ℝ := handleZeros (Real.sqrt (colVar xs))

/-- `StandardScaler.transform` on one column: subtract the mean, divide by
the scale. -/
noncomputable def scaleCol (xs : List ℝ) : List ℝ :=
  xs.map (fun x => (x - colMean xs) / colScale xs)

/-- `self.scaler.fit_transform(df[numerical_columns])`: after the encoding
loop every column is numeric (int64/float64), so the scaler is refitted on
all columns and all columns are transformed.  Returns the transformed table
and the freshly fitted `(name, mean_, scale_)` parameters. -/
noncomputable def scaleColumns (df : DataFrame) : NumDataFrame × List (String × ℝ × ℝ) :=
  (df.map (fun p => (p.1, scaleCol (p.2.map Cell.toReal))),
   df.map (fun p => (p.1, colMean (p.2.map Cell.toReal), colScale (p.2.map Cell.toReal))))

/-- `DataPreprocessor.preprocess`: fill missing values with 0, label-encode
every object column (updating the encoder dict), then refit the scaler on
all (now numeric) columns and standardise them.  Returns the transformed
table together with the mutated preprocessor state. -/
noncomputable def DataPreprocessor.preprocess (s : DataPreprocessor) (df : DataFrame) :
    NumDataFrame × DataPreprocessor :=
  let dff := DataFrame.fillna df
  let enc := encodeColumns s.label_encoders dff
  let scaled := scaleColumns enc.2
  (scaled.1, ⟨enc.1, some scaled.2⟩)

/-! ## prepare_data (train/test split) -/

/-- Column names of a numeric table. -/
def NumDataFrame.colNames (df : NumDataFrame) : List String := df.map (fun p => p.1)

/-- Number of rows of a numeric table (length of its first column). -/
def NumDataFrame.nRows (df : NumDataFrame) : Nat :=
  match df with
  | [] => 0
  | p :: _ => p.2.length

/-- `df.drop(target_column, axis=1)` once the column is known to exist. -/
def dropCol (target : String) (df : NumDataFrame) : NumDataFrame :=
  df.filter (fun p => !(p.1 == target))

/-- `df[target_column]` once the column is known to exist. -/
def getCol (target : String) (df : NumDataFrame) : List ℝ :=
  ((df.find? (fun p => p.1 == target)).map (fun p => p.2)).getD []

/-- sklearn's test-set size for `test_size=0.2`: `ceil(n / 5)`. -/
def nTest (n : Nat) : Nat := (n + 4) / 5

/-- Row selection `X.iloc[idx]`, one output row per index. -/
def selectRows (idx : List Nat) (df : NumDataFrame) : NumDataFrame :=
  df.map (fun p => (p.1, idx.map (fun i => p.2.getD i 0)))

/-- `DataPreprocessor.prepare_data`: separate the target column from the
features (a pandas KeyError — the spec's InvalidInput — if it is absent),
then `train_test_split(X, y, test_size=0.2, random_state=42)`.

The seeded shuffle is a model parameter `perm`: `perm n` is the permutation
of `0..n-1` that `random_state=42` produces for `n` rows (sklearn takes the
first `ceil(n/5)` shuffled indices as the test set and the rest as the
training set).  All theorems hold for every permutation-valued `perm`, hence
for the actual seed-42 one. -/
def DataPreprocessor.prepare_data (perm : Nat → List Nat) (df : NumDataFrame)
    (target : String) :
    Except PyError (NumDataFrame × NumDataFrame × List ℝ × List ℝ) :=
  if target ∈ NumDataFrame.colNames df then
    let X := dropCol target df
    let y := getCol target df
    let n := NumDataFrame.nRows df
    let p := perm n
    let testIdx := p.take (nTest n)
    let trainIdx := p.drop (nTest n)
    Except.ok (selectRows trainIdx X, selectRows testIdx X,
               trainIdx.map (fun i => y.getD i 0), testIdx.map (fun i => y.getD i 0))
  else Except.error PyError.invalidInput

/-! ## HousePriceModel -/

/-- A Python object as stored in `HousePriceModel.model` or inside a joblib
pickle: a fitted `LinearRegression` (its `coef_` vector and `intercept_`),
the unfitted estimator from `__init__`, or some unrelated pickled object. -/
inductive PyObj where
  | linreg (coef : List ℝ) (intercept : ℝ)
  | unfitted
  | pyInt (n : ℤ)
  | pyStr (s : String)

/-- `HousePriceModel`: a thin wrapper holding `self.model`. -/
structure HousePriceModel where
  model : PyObj

/-- Dot product, `coef_ @ x`. -/
noncomputable def dot (c x : List ℝ) : ℝ := (List.zipWith (fun a b => a * b) c x).sum

/-- `HousePriceModel.predict`: `coef_ · row + intercept_` for each row.
sklearn raises (ValueError) when the feature count of a row does not match
the fitted coefficient vector, and NotFittedError when the estimator was
never fitted. -/
noncomputable def HousePriceModel.predict (m : HousePriceModel) (X : List (List ℝ)) :
    Except PyError (List ℝ) :=
  match m.model with
  | PyObj.linreg coef b =>
    if X.all (fun r => r.length == coef.length) then
      Except.ok (X.map (fun r => dot coef r + b))
    else Except.error PyError.valueError
  | _ => Except.error PyError.notFitted

/-- sklearn `mean_squared_error`: mean of squared residuals. -/
noncomputable def mean_squared_error (yTrue yPred : List ℝ) : ℝ :=
  ((List.zipWith (fun a p => (a - p) ^ 2) yTrue yPred).sum) / yTrue.length

/-- sklearn `r2_score`: `1 - SSres/SStot`, where a zero numerator (perfect
predictions) yields 1.0 and a zero denominator with nonzero numerator
(constant target, imperfect predictions) is arbitrarily set to 0.0 — exactly
the special-casing in `sklearn.metrics._regression.r2_score`. -/
noncomputable def r2_score (yTrue yPred : List ℝ) : ℝ :=
  let num := (List.zipWith (fun a p => (a - p) ^ 2) yTrue yPred).sum
  let den := (yTrue.map (fun a => (a - colMean yTrue) ^ 2)).sum
  if num = 0 then 1 else if den = 0 then 0 else 1 - num / den

/-- The metrics dict returned by `HousePriceModel.evaluate`. -/
structure Metrics where
  MSE : ℝ
  RMSE : ℝ
  R2 : ℝ

/-- `HousePriceModel.evaluate`: predictions on the test features, then
`MSE = mean_squared_error`, `RMSE = mse ** 0.5` (the square root, since the
MSE is nonnegative) and `R2 = r2_score`. -/
noncomputable def HousePriceModel.evaluate (m : HousePriceModel) (X : List (List ℝ))
    (y : List ℝ) : Except PyError Metrics :=
  match m.predict X with
  | Except.error e => Except.error e
  | Except.ok preds =>
    Except.ok ⟨mean_squared_error y preds,
               Real.sqrt (mean_squared_error y preds),
               r2_score y preds⟩

/-! ## Persistence (joblib) -/

/-- A file seen by joblib: either a well-formed pickle of some Python object
or unreadable bytes. -/
inductive PickleFile where
  | pickle (v : PyObj)
  | corrupt

/-- `joblib.dump`: serialise the object (the round trip is exact). -/
def joblib_dump (v : PyObj) : PickleFile := PickleFile.pickle v

/-- `joblib.load`: deserialise whatever object the file holds; unreadable
bytes raise (the spec's CorruptState). -/
def joblib_load : PickleFile → Except PyError PyObj
  | PickleFile.pickle v => Except.ok v
  | PickleFile.corrupt => Except.error PyError.corruptState

/-- `HousePriceModel.save_model`: `joblib.dump(self.model, filepath)`. -/
def HousePriceModel.save_model (m : HousePriceModel) : PickleFile :=
  joblib_dump m.model

/-- `HousePriceModel.load_model`: `model.model = joblib.load(filepath)` —
whatever object the pickle holds is assigned without any shape check. -/
def HousePriceModel.load_model (f : PickleFile) : Except PyError HousePriceModel :=
  match joblib_load f with
  | Except.ok v => Except.ok ⟨v⟩
  | Except.error e => Except.error e

/-! ## The GUI predict path (src/gui.py, PredictionGUI.predict) -/

/-- Column names of a raw table. -/
def DataFrame.colNames (df : DataFrame) : List String := df.map (fun p => p.1)

/-- `pd.DataFrame([input_data])`: a single-row table from the entry dict. -/
def buildInputDf (inputData : List (String × Cell)) : DataFrame :=
  inputData.map (fun p => (p.1, [p.2]))

/-- The loop `for col in self.feature_columns: if col not in input_df.columns:
input_df[col] = 0` — missing feature columns are silently appended with
value 0. -/
def ensureColumns (featureCols : List String) (df : DataFrame) : DataFrame :=
  df ++ (featureCols.filter (fun c => !((DataFrame.colNames df).contains c))).map
    (fun c => (c, [Cell.num 0]))

/-- `input_df = input_df[self.feature_columns]`: reorder to the training
column order (every feature column exists after `ensureColumns`). -/
def reorderColumns (featureCols : List String) (df : DataFrame) : DataFrame :=
  featureCols.map (fun c => (c, ((df.find? (fun p => p.1 == c)).map (fun p => p.2)).getD []))

/-- The core of `PredictionGUI.predict` from the collected `input_data`
onwards: build the single-row frame, zero-fill and reorder the feature
columns, run it through `preprocessor.preprocess`, and return
`model.predict(processed_input)[0]`. -/
noncomputable def PredictionGUI.predictPath (m : HousePriceModel) (pre : DataPreprocessor)
    (featureCols : List String) (inputData : List (String × Cell)) : Except PyError ℝ :=
  let inputDf := reorderColumns featureCols (ensureColumns featureCols (buildInputDf inputData))
  let processed := (DataPreprocessor.preprocess pre inputDf).1
  let row := processed.map (fun p => p.2.getD 0 0)
  match HousePriceModel.predict m [row] with
  | Except.ok preds => Except.ok (preds.getD 0 0)
  | Except.error e => Except.error e

/-! ## main.py -/

/-- The number of non-self parameters of `PredictionGUI.__init__`
(`model`, `preprocessor`, `feature_columns`). -/
def PredictionGUI.initRequiredArgs : Nat := 3

/-- The number of positional arguments `main` passes:
`PredictionGUI(model, preprocessor)`. -/
def PredictionGUI.mainCallArgs : Nat := 2

/-- Python call semantics for positional arguments: an arity mismatch raises
TypeError before the callee body runs. -/
def callPositional (required given : Nat) : Except PyError Unit :=
  if given = required then Except.ok () else Except.error PyError.typeError

/-- The shape validation of `LinearRegression.fit`: it raises (ValueError)
when there are no training samples or no feature columns; the numeric
least-squares solve itself always succeeds and does not affect control
flow. -/
def fitCheck (Xtr : NumDataFrame) (ytr : List ℝ) : Except PyError Unit :=
  if Xtr.length = 0 ∨ ytr.length = 0 then Except.error PyError.valueError else Except.ok ()

/-- The pipeline of `main` after the CSV read, up to its control-flow
outcome: preprocess, prepare the split, fit the model (evaluating, printing
and saving never fail and do not change control flow), then construct
`PredictionGUI(model, preprocessor)` — two positional arguments against the
three `PredictionGUI.__init__` requires.  `gui.run()` would only follow a
successful construction. -/
noncomputable def mainRun (perm : Nat → List Nat) (df : DataFrame) : Except PyError Unit :=
  match DataPreprocessor.prepare_data perm
      (DataPreprocessor.preprocess DataPreprocessor.init df).1 ("SalePrice") with
  | Except.error e => Except.error e
  | Except.ok split =>
    match fitCheck split.1 split.2.2.1 with
    | Except.error e => Except.error e
    | Except.ok _ => callPositional PredictionGUI.initRequiredArgs PredictionGUI.mainCallArgs

/-! ## Lemmas: every call refits, so the incoming state never influences
the output -/

/-- The encoded table produced by the categorical loop does not depend on
the encoder dict the loop starts from: `fit_transform` refits each encoder
from the current column. -/
theorem encodeColumns_snd_ind (df : DataFrame) :
    ∀ e₁ e₂, (encodeColumns e₁ df).2 = (encodeColumns e₂ df).2 := by
  induction df with
  | nil => intro e₁ e₂; rfl
  | cons p rest ih =>
    intro e₁ e₂
    cases h : Col.isObject p.2 <;> simp [encodeColumns, h] <;> exact ih _ _

/-- Dict assignment then lookup. -/
theorem lookupEnc_assocSet (k : String) (v : List String) :
    ∀ (e : List (String × List String)) (name : String),
    lookupEnc (assocSet k v e) name = if name = k then some v else lookupEnc e name := by
  intro e
  induction e with
  | nil => intro name; simp [assocSet, lookupEnc]
  | cons p rest ih =>
    intro name
    by_cases hp : p.1 = k
    · simp only [assocSet, if_pos hp, lookupEnc]
      by_cases hn : name = k
      · simp [hn]
      · simp [hn, show ¬(name = p.1) from fun h => hn (h.trans hp)]
    · simp only [assocSet, if_neg hp, lookupEnc]
      by_cases hn : name = p.1
      · simp [lookupEnc, hn, hp, show ¬(name = k) from fun h => hp (hn.symm.trans h)]
      · simp [lookupEnc, hn, ih name]

/-- The classes the encoding loop leaves stored for column `name`, as
determined by the input table alone: the freshly fitted classes of the last
object column named `name` (later assignments overwrite earlier ones), or
nothing if the table has no such column. -/
def dfFit : DataFrame → String → Option (List String)
  | [], _ => none
  | p :: rest, name =>
    match dfFit rest name with
    | some cls => some cls
    | none =>
      if name = p.1 ∧ Col.isObject p.2 = true then
        some (LabelEncoder.fit (p.2.map Cell.toPyStr))
      else none

/-- After the encoding loop, the entry for `name` is the one freshly fitted
from the input table when the table has an object column of that name, and
the untouched incoming entry otherwise. -/
theorem lookupEnc_encodeColumns (df : DataFrame) :
    ∀ e name, lookupEnc (encodeColumns e df).1 name =
      match dfFit df name with
      | some cls => some cls
      | none => lookupEnc e name := by
  induction df with
  | nil => intro e name; simp [encodeColumns, dfFit]
  | cons p rest ih =>
    intro e name
    cases hobj : Col.isObject p.2
    · have hL : (encodeColumns e (p :: rest)).1 = (encodeColumns e rest).1 := by
        simp [encodeColumns, hobj]
      rw [hL, ih e name]
      cases hd : dfFit rest name <;> simp [dfFit, hd, hobj]
    · have hL : (encodeColumns e (p :: rest)).1 =
          (encodeColumns (assocSet p.1 (LabelEncoder.fit (p.2.map Cell.toPyStr)) e) rest).1 := by
        simp [encodeColumns, hobj]
      rw [hL, ih _ name]
      cases hd : dfFit rest name
      · simp only [dfFit, hd, lookupEnc_assocSet, hobj]
        by_cases hn : name = p.1 <;> simp [hn]
      · simp [dfFit, hd]

/-- A table with an object column named `name` determines fresh classes for
`name`. -/
theorem dfFit_isSome (df : DataFrame) (name : String) :
    (∃ col, (name, col) ∈ df ∧ Col.isObject col = true) → (dfFit df name).isSome := by
  induction df with
  | nil => rintro ⟨col, hmem, _⟩; cases hmem
  | cons p rest ih =>
    rintro ⟨col, hmem, hobj⟩
    rcases List.mem_cons.mp hmem with hhd | htl
    · cases hd : dfFit rest name
      · simp [dfFit, hd, ← hhd, hobj]
      · simp [dfFit, hd]
    · have := ih ⟨col, htl, hobj⟩
      cases hd : dfFit rest name
      · rw [hd] at this; simp at this
      · simp [dfFit, hd]

/-- Claim C1 (amended): `preprocess` refits on every call — the transformed
output, the refitted scaler parameters, and the stored encoder classes of
every categorical column present in the input are computed from the current
input alone, identically from any two prior preprocessor states. -/
theorem preprocess_refit_state_independent (s t : DataPreprocessor) (df : DataFrame) :
    (DataPreprocessor.preprocess s df).1 = (DataPreprocessor.preprocess t df).1 ∧
    (DataPreprocessor.preprocess s df).2.scaler = (DataPreprocessor.preprocess t df).2.scaler ∧
    ∀ name col, (name, col) ∈ DataFrame.fillna df → Col.isObject col = true →
      lookupEnc (DataPreprocessor.preprocess s df).2.label_encoders name =
      lookupEnc (DataPreprocessor.preprocess t df).2.label_encoders name := by
  refine ⟨?_, ?_, ?_⟩
  · simp only [DataPreprocessor.preprocess]
    rw [encodeColumns_snd_ind (DataFrame.fillna df) s.label_encoders t.label_encoders]
  · simp only [DataPreprocessor.preprocess]
    rw [encodeColumns_snd_ind (DataFrame.fillna df) s.label_encoders t.label_encoders]
  · intro name col hmem hobj
    simp only [DataPreprocessor.preprocess]
    rw [lookupEnc_encodeColumns (DataFrame.fillna df) s.label_encoders name,
        lookupEnc_encodeColumns (DataFrame.fillna df) t.label_encoders name]
    have hsome := dfFit_isSome (DataFrame.fillna df) name ⟨col, hmem, hobj⟩
    cases hd : dfFit (DataFrame.fillna df) name
    · rw [hd] at hsome; simp at hsome
    · simp [hd]

/-- Witness for C1 (amended) at a concrete categorical input and two
different prior states. -/
theorem preprocess_refit_state_independent_witness :
    ((("c"), [Cell.str ("a")]) ∈ DataFrame.fillna [(("c"), [Cell.str ("a")])]
      ∧ Col.isObject [Cell.str ("a")] = true) ∧
    lookupEnc (DataPreprocessor.preprocess ⟨[], none⟩
        [(("c"), [Cell.str ("a")])]).2.label_encoders ("c") =
      lookupEnc (DataPreprocessor.preprocess ⟨[(("z"), [("w")])], none⟩
        [(("c"), [Cell.str ("a")])]).2.label_encoders ("c") := by
  refine ⟨⟨?_, ?_⟩, ?_⟩
  · simp [DataFrame.fillna, Cell.fill0]
  · decide
  · exact (preprocess_refit_state_independent ⟨[], none⟩ ⟨[(("z"), [("w")])], none⟩
      [(("c"), [Cell.str ("a")])]).2.2 ("c") [Cell.str ("a")]
      (by simp [DataFrame.fillna, Cell.fill0]) (by decide)

/-- Claim C2 (confirmed): calling `preprocess` twice in succession with the
same preprocessor on the same input yields identical output tables — the
second call re-scales the same raw input from scratch, so nothing is scaled
twice. -/
theorem preprocess_repeat_same_output (s : DataPreprocessor) (df : DataFrame) :
    (DataPreprocessor.preprocess ((DataPreprocessor.preprocess s df).2) df).1 =
      (DataPreprocessor.preprocess s df).1 := by
  simp only [DataPreprocessor.preprocess]
  rw [encodeColumns_snd_ind (DataFrame.fillna df)
    (encodeColumns s.label_encoders (DataFrame.fillna df)).1 s.label_encoders]

/-- Claim C1 (counterexample): a preprocessor fitted on the column
`x = [0, 2]` stores scaler parameters `(mean 1, scale 1)`; preprocessing
`x = [0, 4]` with that same instance does not reapply them — it refits,
leaving `(mean 2, scale 2)`, a changed state. -/
theorem preprocess_second_call_refits_counterexample :
    ((DataPreprocessor.preprocess DataPreprocessor.init
        [(("x"), [Cell.num 0, Cell.num 2])]).2).scaler = some [(("x"), (1 : ℝ), (1 : ℝ))] ∧
    ((DataPreprocessor.preprocess
        ((DataPreprocessor.preprocess DataPreprocessor.init [(("x"), [Cell.num 0, Cell.num 2])]).2)
        [(("x"), [Cell.num 0, Cell.num 4])]).2).scaler = some [(("x"), (2 : ℝ), (2 : ℝ))] ∧
    (DataPreprocessor.preprocess
        ((DataPreprocessor.preprocess DataPreprocessor.init [(("x"), [Cell.num 0, Cell.num 2])]).2)
        [(("x"), [Cell.num 0, Cell.num 4])]).2 ≠
      (DataPreprocessor.preprocess DataPreprocessor.init [(("x"), [Cell.num 0, Cell.num 2])]).2 := by
  have hmapA : ([Cell.num 0, Cell.num 2].map Cell.toReal) = [(0 : ℝ), 2] := by
    simp [Cell.toReal]
  have hmapB : ([Cell.num 0, Cell.num 4].map Cell.toReal) = [(0 : ℝ), 4] := by
    simp [Cell.toReal]
  have hmA : colMean [(0 : ℝ), 2] = 1 := by
    norm_num [colMean]
  have hmB : colMean [(0 : ℝ), 4] = 2 := by
    norm_num [colMean]
  have hvA : colVar [(0 : ℝ), 2] = 1 := by
    norm_num [colVar, hmA]
  have hvB : colVar [(0 : ℝ), 4] = 4 := by
    norm_num [colVar, hmB]
  have hsA : colScale [(0 : ℝ), 2] = 1 := by
    simp [colScale, hvA, Real.sqrt_one, handleZeros]
  have hsB : colScale [(0 : ℝ), 4] = 2 := by
    have h4 : Real.sqrt 4 = 2 := by
      rw [show (4 : ℝ) = 2 ^ 2 by norm_num]
      exact Real.sqrt_sq (by norm_num)
    simp [colScale, hvB, h4, handleZeros]
  have hA : ((DataPreprocessor.preprocess DataPreprocessor.init
      [(("x"), [Cell.num 0, Cell.num 2])]).2).scaler = some [(("x"), (1 : ℝ), (1 : ℝ))] := by
    simp [DataPreprocessor.preprocess, DataFrame.fillna, Cell.fill0, encodeColumns,
      Col.isObject, Cell.isStr, scaleColumns, hmapA, hmA, hsA]
  have hB : ((DataPreprocessor.preprocess
      ((DataPreprocessor.preprocess DataPreprocessor.init [(("x"), [Cell.num 0, Cell.num 2])]).2)
      [(("x"), [Cell.num 0, Cell.num 4])]).2).scaler = some [(("x"), (2 : ℝ), (2 : ℝ))] := by
    simp [DataPreprocessor.preprocess, DataFrame.fillna, Cell.fill0, encodeColumns,
      Col.isObject, Cell.isStr, scaleColumns, hmapB, hmB, hsB]
  refine ⟨hA, hB, fun heq => ?_⟩
  have h := congrArg DataPreprocessor.scaler heq
  rw [hA, hB] at h
  norm_num at h

/-! ## prepare_data: determinism, sizes and the row partition -/

/-- Reading a list back through `getD` over its index range reproduces it. -/
theorem map_getD_range (y : List ℝ) :
    (List.range y.length).map (fun i => y.getD i 0) = y := by
  induction y with
  | nil => simp
  | cons a t ih =>
    rw [List.length_cons, List.range_succ_eq_map, List.map_cons, List.map_map]
    have hc : ((fun i => (a :: t).getD i 0) ∘ Nat.succ) = fun i => t.getD i 0 := by
      funext i
      simp [Function.comp, List.getD_cons_succ]
    rw [List.getD_cons_zero, hc, ih]

/-- The target column retrieved by `getCol` is a column of the table. -/
theorem getCol_mem : ∀ (df : NumDataFrame) (target : String),
    target ∈ NumDataFrame.colNames df → (target, getCol target df) ∈ df := by
  intro df
  induction df with
  | nil => intro target h; simp [NumDataFrame.colNames] at h
  | cons p rest ih =>
    intro target h
    by_cases hp : p.1 = target
    · have hfind : (p :: rest).find? (fun q => q.1 == target) = some p :=
        List.find?_cons_of_pos _ (by simp [hp])
      have hcol : getCol target (p :: rest) = p.2 := by simp [getCol, hfind]
      rw [hcol]
      exact List.mem_cons.mpr (Or.inl (by rw [← hp]))
    · have hmem : target ∈ NumDataFrame.colNames rest := by
        simp only [NumDataFrame.colNames, List.map_cons, List.mem_cons] at h
        rcases h with h | h
        · exact absurd h.symm hp
        · exact h
      have hfind : (p :: rest).find? (fun q => q.1 == target) =
          rest.find? (fun q => q.1 == target) :=
        List.find?_cons_of_neg _ (by simp [hp])
      have hcol : getCol target (p :: rest) = getCol target rest := by
        simp [getCol, hfind]
      rw [hcol]
      exact List.mem_cons_of_mem p (ih target hmem)

/-- Selecting the dropped indices then the taken indices of a permutation of
the row range visits every row exactly once. -/
theorem select_partition (c : List ℝ) (p : List Nat) (k : Nat)
    (hp : p.Perm (List.range c.length)) :
    ((p.drop k).map (fun i => c.getD i 0) ++ (p.take k).map (fun i => c.getD i 0)).Perm c := by
  have h1 : (p.drop k ++ p.take k).Perm p := by
    have h := @List.perm_append_comm _ (p.drop k) (p.take k)
    rwa [List.take_append_drop] at h
  have h2 := (h1.trans hp).map (fun i => c.getD i 0)
  rw [List.map_append, map_getD_range] at h2
  exact h2

/-- The ceiling test size never exceeds the row count. -/
theorem nTest_le (n : Nat) : nTest n ≤ n := by
  simp only [nTest]
  omega

/-- Claim C3 (confirmed): with the target column present, `prepare_data`
succeeds; the seeded shuffle makes the result a function of the input (any
run whose shuffle coincides produces the identical split); the holdout gets
`ceil(n/5)` rows (20%) and training the remaining 80%; and together the two
parts are exactly a permutation of the original rows, for the target and
for every feature column. -/
theorem prepare_data_deterministic_split (perm : Nat → List Nat)
    (hperm : ∀ n, (perm n).Perm (List.range n)) (df : NumDataFrame) (target : String)
    (htarget : target ∈ NumDataFrame.colNames df)
    (hrect : ∀ p ∈ df, p.2.length = NumDataFrame.nRows df) :
    ∃ Xtr Xte ytr yte,
      DataPreprocessor.prepare_data perm df target = Except.ok (Xtr, Xte, ytr, yte) ∧
      (∀ perm₂ : Nat → List Nat,
        perm₂ (NumDataFrame.nRows df) = perm (NumDataFrame.nRows df) →
        DataPreprocessor.prepare_data perm₂ df target =
          DataPreprocessor.prepare_data perm df target) ∧
      yte.length = nTest (NumDataFrame.nRows df) ∧
      ytr.length = NumDataFrame.nRows df - nTest (NumDataFrame.nRows df) ∧
      (ytr ++ yte).Perm (getCol target df) ∧
      NumDataFrame.colNames Xtr = NumDataFrame.colNames (dropCol target df) ∧
      ∀ q ∈ dropCol target df, ∃ ctr cte, (q.1, ctr) ∈ Xtr ∧ (q.1, cte) ∈ Xte ∧
        (ctr ++ cte).Perm q.2 := by
  have hlen : (perm (NumDataFrame.nRows df)).length = NumDataFrame.nRows df :=
    (hperm (NumDataFrame.nRows df)).length_eq.trans (List.length_range _)
  have hylen : (getCol target df).length = NumDataFrame.nRows df :=
    hrect (target, getCol target df) (getCol_mem df target htarget)
  have hok : DataPreprocessor.prepare_data perm df target =
      Except.ok
        (selectRows ((perm (NumDataFrame.nRows df)).drop (nTest (NumDataFrame.nRows df)))
          (dropCol target df),
         selectRows ((perm (NumDataFrame.nRows df)).take (nTest (NumDataFrame.nRows df)))
          (dropCol target df),
         ((perm (NumDataFrame.nRows df)).drop (nTest (NumDataFrame.nRows df))).map
          (fun i => (getCol target df).getD i 0),
         ((perm (NumDataFrame.nRows df)).take (nTest (NumDataFrame.nRows df))).map
          (fun i => (getCol target df).getD i 0)) := by
    unfold DataPreprocessor.prepare_data
    rw [if_pos htarget]
  refine ⟨_, _, _, _, hok, ?_, ?_, ?_, ?_, ?_, ?_⟩
  · intro perm₂ h2
    unfold DataPreprocessor.prepare_data
    simp only [h2]
  · rw [List.length_map, List.length_take, hlen]
    exact Nat.min_eq_left (nTest_le _)
  · rw [List.length_map, List.length_drop, hlen]
  · exact select_partition (getCol target df) (perm (NumDataFrame.nRows df))
      (nTest (NumDataFrame.nRows df)) (by rw [hylen]; exact hperm _)
  · simp [selectRows, NumDataFrame.colNames, List.map_map, Function.comp]
  · intro q hq
    refine ⟨(perm (NumDataFrame.nRows df)).drop (nTest (NumDataFrame.nRows df)) |>.map
        (fun i => q.2.getD i 0),
      (perm (NumDataFrame.nRows df)).take (nTest (NumDataFrame.nRows df)) |>.map
        (fun i => q.2.getD i 0), ?_, ?_, ?_⟩
    · exact List.mem_map.mpr ⟨q, hq, rfl⟩
    · exact List.mem_map.mpr ⟨q, hq, rfl⟩
    · have hqdf : q ∈ df := List.mem_of_mem_filter hq
      exact select_partition q.2 (perm (NumDataFrame.nRows df))
        (nTest (NumDataFrame.nRows df)) (by rw [hrect q hqdf]; exact hperm _)

/-- Witness for C3 at a concrete two-row table and a concrete permutation
function. -/
theorem prepare_data_deterministic_split_witness :
    ((∀ n, (List.range n).Perm (List.range n)) ∧
      ("SalePrice") ∈ NumDataFrame.colNames
        [(("GrLivArea"), [(1 : ℝ), 2]), (("SalePrice"), [(10 : ℝ), 20])] ∧
      ∀ p ∈ [(("GrLivArea"), [(1 : ℝ), 2]), (("SalePrice"), [(10 : ℝ), 20])],
        p.2.length = NumDataFrame.nRows
          [(("GrLivArea"), [(1 : ℝ), 2]), (("SalePrice"), [(10 : ℝ), 20])]) ∧
    ∃ Xtr Xte ytr yte,
      DataPreprocessor.prepare_data (fun n => List.range n)
          [(("GrLivArea"), [(1 : ℝ), 2]), (("SalePrice"), [(10 : ℝ), 20])] ("SalePrice") =
        Except.ok (Xtr, Xte, ytr, yte) ∧
      (∀ perm₂ : Nat → List Nat,
        perm₂ (NumDataFrame.nRows
            [(("GrLivArea"), [(1 : ℝ), 2]), (("SalePrice"), [(10 : ℝ), 20])]) =
          (fun n => List.range n) (NumDataFrame.nRows
            [(("GrLivArea"), [(1 : ℝ), 2]), (("SalePrice"), [(10 : ℝ), 20])]) →
        DataPreprocessor.prepare_data perm₂
            [(("GrLivArea"), [(1 : ℝ), 2]), (("SalePrice"), [(10 : ℝ), 20])] ("SalePrice") =
          DataPreprocessor.prepare_data (fun n => List.range n)
            [(("GrLivArea"), [(1 : ℝ), 2]), (("SalePrice"), [(10 : ℝ), 20])] ("SalePrice")) ∧
      yte.length = nTest (NumDataFrame.nRows
        [(("GrLivArea"), [(1 : ℝ), 2]), (("SalePrice"), [(10 : ℝ), 20])]) ∧
      ytr.length = NumDataFrame.nRows
          [(("GrLivArea"), [(1 : ℝ), 2]), (("SalePrice"), [(10 : ℝ), 20])] -
        nTest (NumDataFrame.nRows
          [(("GrLivArea"), [(1 : ℝ), 2]), (("SalePrice"), [(10 : ℝ), 20])]) ∧
      (ytr ++ yte).Perm (getCol ("SalePrice")
        [(("GrLivArea"), [(1 : ℝ), 2]), (("SalePrice"), [(10 : ℝ), 20])]) ∧
      NumDataFrame.colNames Xtr = NumDataFrame.colNames (dropCol ("SalePrice")
        [(("GrLivArea"), [(1 : ℝ), 2]), (("SalePrice"), [(10 : ℝ), 20])]) ∧
      ∀ q ∈ dropCol ("SalePrice")
          [(("GrLivArea"), [(1 : ℝ), 2]), (("SalePrice"), [(10 : ℝ), 20])],
        ∃ ctr cte, (q.1, ctr) ∈ Xtr ∧ (q.1, cte) ∈ Xte ∧ (ctr ++ cte).Perm q.2 := by
  have hrect : ∀ p ∈ [(("GrLivArea"), [(1 : ℝ), 2]), (("SalePrice"), [(10 : ℝ), 20])],
      p.2.length = NumDataFrame.nRows
        [(("GrLivArea"), [(1 : ℝ), 2]), (("SalePrice"), [(10 : ℝ), 20])] := by
    intro p hp
    rcases List.mem_cons.mp hp with h | h
    · subst h; rfl
    · rcases List.mem_cons.mp h with h2 | h2
      · subst h2; rfl
      · exact absurd h2 (List.not_mem_nil p)
  refine ⟨⟨fun n => List.Perm.refl _, by simp [NumDataFrame.colNames], hrect⟩, ?_⟩
  exact prepare_data_deterministic_split (fun n => List.range n)
    (fun n => List.Perm.refl _) _ ("SalePrice")
    (by simp [NumDataFrame.colNames]) hrect

/-- Claim C4 (confirmed): when the named target column is absent,
`prepare_data` fails with the KeyError of `df.drop` — the spec's
InvalidInput — and with no other outcome. -/
theorem prepare_data_missing_target_invalid_input (perm : Nat → List Nat)
    (df : NumDataFrame) (target : String) (h : target ∉ NumDataFrame.colNames df) :
    DataPreprocessor.prepare_data perm df target = Except.error PyError.invalidInput := by
  simp [DataPreprocessor.prepare_data, h]

/-- Witness for C4 at a concrete table without a SalePrice column. -/
theorem prepare_data_missing_target_invalid_input_witness :
    (("SalePrice") ∉ NumDataFrame.colNames [(("GrLivArea"), [(1 : ℝ)])]) ∧
    DataPreprocessor.prepare_data (fun n => List.range n)
        [(("GrLivArea"), [(1 : ℝ)])] ("SalePrice") =
      Except.error PyError.invalidInput := by
  have h : ("SalePrice") ∉ NumDataFrame.colNames [(("GrLivArea"), [(1 : ℝ)])] := by
    simp [NumDataFrame.colNames]
  exact ⟨h, prepare_data_missing_target_invalid_input (fun n => List.range n) _ _ h⟩

/-! ## evaluate: the metric formulas -/

/-- Sum of squared residuals of candidate linear-model parameters on a data
set; `LinearRegression.fit` returns parameters minimising it. -/
noncomputable def SSE (X : List (List ℝ)) (y : List ℝ) (coef : List ℝ) (b : ℝ) : ℝ :=
  (List.zipWith (fun r a => (dot coef r + b - a) ^ 2) X y).sum

/-- Least-squares optimality: no other parameters achieve a smaller sum of
squared residuals. -/
def IsLeastSquaresFit (X : List (List ℝ)) (y : List ℝ) (coef : List ℝ) (b : ℝ) : Prop :=
  ∀ c₂ b₂, SSE X y coef b ≤ SSE X y c₂ b₂

/-- Stated from the spec's words, for comparison with the code: the sum of
squared residuals. -/
noncomputable def specSSres (yTrue yPred : List ℝ) : ℝ :=
  (List.zipWith (fun a p => (a - p) ^ 2) yTrue yPred).sum

/-- Stated from the spec's words, for comparison with the code: the total
sum of squares about the target mean. -/
noncomputable def specSStot (yTrue : List ℝ) : ℝ :=
  (yTrue.map (fun a => (a - colMean yTrue) ^ 2)).sum

/-- Stated from the spec's words, for comparison with the code: the mean of
squared (prediction − actual). -/
noncomputable def specMSE (yTrue yPred : List ℝ) : ℝ :=
  specSSres yTrue yPred / yTrue.length

/-- Case form of sklearn's `r2_score` in terms of the spec's sums. -/
theorem r2_score_eq (yTrue yPred : List ℝ) :
    r2_score yTrue yPred =
      if specSSres yTrue yPred = 0 then 1
      else if specSStot yTrue = 0 then 0
      else 1 - specSSres yTrue yPred / specSStot yTrue := rfl

/-- A sum of squared residuals is nonnegative. -/
theorem SSE_nonneg : ∀ (X : List (List ℝ)) (y : List ℝ) (c : List ℝ) (b : ℝ),
    0 ≤ SSE X y c b := by
  intro X
  induction X with
  | nil => intro y c b; simp [SSE]
  | cons r rest ih =>
    intro y c b
    cases y with
    | nil => simp [SSE]
    | cons a ys =>
      have hrest := ih ys c b
      simp only [SSE, List.zipWith_cons_cons, List.sum_cons]
      simp only [SSE] at hrest
      have hsq : (0 : ℝ) ≤ (dot c r + b - a) ^ 2 := sq_nonneg _
      linarith

/-- Claim C5 (amended): for a fitted model on a matching non-empty test set,
`evaluate` returns MSE equal to the mean of squared (prediction − actual)
and RMSE equal to its square root; R2 equals 1 − SSres/SStot whenever both
sums are nonzero, is 0 when the target variance is zero with nonzero
residuals, but is 1 — not 0 nor an undefined marker — whenever the
residuals vanish, including on a zero-variance target; no case is an
uncaught NaN. -/
theorem evaluate_metric_formulas (coef : List ℝ) (b : ℝ) (X : List (List ℝ)) (y : List ℝ)
    (hne : X ≠ []) (hrows : ∀ r ∈ X, r.length = coef.length) (hy : y.length = X.length) :
    ∃ mets, HousePriceModel.evaluate ⟨PyObj.linreg coef b⟩ X y = Except.ok mets ∧
      mets.MSE = specMSE y (X.map (fun r => dot coef r + b)) ∧
      mets.RMSE = Real.sqrt mets.MSE ∧
      (specSSres y (X.map (fun r => dot coef r + b)) = 0 → mets.R2 = 1) ∧
      (specSStot y = 0 → specSSres y (X.map (fun r => dot coef r + b)) ≠ 0 → mets.R2 = 0) ∧
      (specSStot y ≠ 0 → specSSres y (X.map (fun r => dot coef r + b)) ≠ 0 →
        mets.R2 = 1 - specSSres y (X.map (fun r => dot coef r + b)) / specSStot y) := by
  have hall : X.all (fun r => r.length == coef.length) = true := by
    rw [List.all_eq_true]
    intro r hr
    simpa using hrows r hr
  have hpred : HousePriceModel.predict ⟨PyObj.linreg coef b⟩ X =
      Except.ok (X.map (fun r => dot coef r + b)) := by
    simp [HousePriceModel.predict, hall]
  have hev : HousePriceModel.evaluate ⟨PyObj.linreg coef b⟩ X y =
      Except.ok ⟨mean_squared_error y (X.map (fun r => dot coef r + b)),
                 Real.sqrt (mean_squared_error y (X.map (fun r => dot coef r + b))),
                 r2_score y (X.map (fun r => dot coef r + b))⟩ := by
    unfold HousePriceModel.evaluate
    rw [hpred]
  refine ⟨_, hev, rfl, rfl, ?_, ?_, ?_⟩
  · intro h0
    rw [r2_score_eq, if_pos h0]
  · intro hden hnum
    rw [r2_score_eq, if_neg hnum, if_pos hden]
  · intro hden hnum
    rw [r2_score_eq, if_neg hnum, if_neg hden]

/-- Witness for C5 (amended) at a concrete fitted model and two-row test
set. -/
theorem evaluate_metric_formulas_witness :
    (([[(1 : ℝ)], [(2 : ℝ)]] : List (List ℝ)) ≠ [] ∧
      (∀ r ∈ ([[(1 : ℝ)], [(2 : ℝ)]] : List (List ℝ)), r.length = [(1 : ℝ)].length) ∧
      ([(1 : ℝ), 3].length = ([[(1 : ℝ)], [(2 : ℝ)]] : List (List ℝ)).length)) ∧
    ∃ mets, HousePriceModel.evaluate ⟨PyObj.linreg [(1 : ℝ)] 0⟩ [[(1 : ℝ)], [(2 : ℝ)]]
        [(1 : ℝ), 3] = Except.ok mets ∧
      mets.MSE = specMSE [(1 : ℝ), 3]
        (([[(1 : ℝ)], [(2 : ℝ)]] : List (List ℝ)).map (fun r => dot [(1 : ℝ)] r + 0)) ∧
      mets.RMSE = Real.sqrt mets.MSE ∧
      (specSSres [(1 : ℝ), 3]
          (([[(1 : ℝ)], [(2 : ℝ)]] : List (List ℝ)).map (fun r => dot [(1 : ℝ)] r + 0)) = 0 →
        mets.R2 = 1) ∧
      (specSStot [(1 : ℝ), 3] = 0 →
        specSSres [(1 : ℝ), 3]
          (([[(1 : ℝ)], [(2 : ℝ)]] : List (List ℝ)).map (fun r => dot [(1 : ℝ)] r + 0)) ≠ 0 →
        mets.R2 = 0) ∧
      (specSStot [(1 : ℝ), 3] ≠ 0 →
        specSSres [(1 : ℝ), 3]
          (([[(1 : ℝ)], [(2 : ℝ)]] : List (List ℝ)).map (fun r => dot [(1 : ℝ)] r + 0)) ≠ 0 →
        mets.R2 = 1 - specSSres [(1 : ℝ), 3]
            (([[(1 : ℝ)], [(2 : ℝ)]] : List (List ℝ)).map (fun r => dot [(1 : ℝ)] r + 0)) /
          specSStot [(1 : ℝ), 3]) := by
  refine ⟨⟨by simp, by simp, rfl⟩, ?_⟩
  exact evaluate_metric_formulas [(1 : ℝ)] 0 [[(1 : ℝ)], [(2 : ℝ)]] [(1 : ℝ), 3]
    (by simp) (by simp) rfl

/-- Claim C5 (counterexample): coef=[0], intercept=5 is a least-squares fit
for X=[[1],[2]], y=[5,5]; evaluating that trained model on the same set —
a test target with zero variance — reports R2 = 1, not 0 and not an
undefined marker. -/
theorem evaluate_zero_variance_r2_counterexample :
    IsLeastSquaresFit [[(1 : ℝ)], [(2 : ℝ)]] [(5 : ℝ), 5] [(0 : ℝ)] 5 ∧
    specSStot [(5 : ℝ), 5] = 0 ∧
    ∃ mets, HousePriceModel.evaluate ⟨PyObj.linreg [(0 : ℝ)] 5⟩ [[(1 : ℝ)], [(2 : ℝ)]]
        [(5 : ℝ), 5] = Except.ok mets ∧ mets.R2 = 1 ∧ mets.R2 ≠ 0 := by
  have hsse : SSE [[(1 : ℝ)], [(2 : ℝ)]] [(5 : ℝ), 5] [(0 : ℝ)] 5 = 0 := by
    norm_num [SSE, dot]
  have hlsq : IsLeastSquaresFit [[(1 : ℝ)], [(2 : ℝ)]] [(5 : ℝ), 5] [(0 : ℝ)] 5 := by
    intro c₂ b₂
    rw [hsse]
    exact SSE_nonneg _ _ _ _
  have hpred : HousePriceModel.predict ⟨PyObj.linreg [(0 : ℝ)] 5⟩ [[(1 : ℝ)], [(2 : ℝ)]] =
      Except.ok [(5 : ℝ), 5] := by
    norm_num [HousePriceModel.predict, dot]
  have hnum : specSSres [(5 : ℝ), 5] [(5 : ℝ), 5] = 0 := by
    norm_num [specSSres]
  have hr2 : r2_score [(5 : ℝ), 5] [(5 : ℝ), 5] = 1 := by
    rw [r2_score_eq, if_pos hnum]
  have hev : HousePriceModel.evaluate ⟨PyObj.linreg [(0 : ℝ)] 5⟩ [[(1 : ℝ)], [(2 : ℝ)]]
      [(5 : ℝ), 5] = Except.ok ⟨mean_squared_error [(5 : ℝ), 5] [(5 : ℝ), 5],
        Real.sqrt (mean_squared_error [(5 : ℝ), 5] [(5 : ℝ), 5]),
        r2_score [(5 : ℝ), 5] [(5 : ℝ), 5]⟩ := by
    unfold HousePriceModel.evaluate
    rw [hpred]
  refine ⟨hlsq, by norm_num [specSStot, colMean], _, hev, hr2, ?_⟩
  rw [hr2]
  exact one_ne_zero

/-! ## Persistence round trip and its missing validation -/

/-- Claim C6 (confirmed): saving then loading restores the model object
exactly (joblib round-trips the pickle), so the reloaded model's
predictions agree exactly with the original's — in particular within any
floating-point tolerance such as 1e-9 relative. -/
theorem save_load_roundtrip_predict (m : HousePriceModel) (X : List (List ℝ)) :
    ∃ m₂, HousePriceModel.load_model (HousePriceModel.save_model m) = Except.ok m₂ ∧
      HousePriceModel.predict m₂ X = HousePriceModel.predict m X :=
  ⟨⟨m.model⟩, rfl, rfl⟩

/-- Claim C7 (counterexample): a readable pickle holding the integer 42 —
not the serialized shape of a fitted model — is accepted by `load_model`,
which returns a wrapper around it instead of a CorruptState error. -/
theorem load_model_wrong_shape_counterexample :
    HousePriceModel.load_model (PickleFile.pickle (PyObj.pyInt 42)) =
      Except.ok ⟨PyObj.pyInt 42⟩ ∧
    HousePriceModel.load_model (PickleFile.pickle (PyObj.pyInt 42)) ≠
      Except.error PyError.corruptState :=
  ⟨rfl, by simp [HousePriceModel.load_model, joblib_load]⟩

/-- Claim C7 (amended): `load_model` propagates a CorruptState error only
for files the deserialiser cannot read at all; it performs no shape
validation, wrapping and returning whatever object a readable pickle
holds. -/
theorem load_model_no_shape_validation :
    (∀ v, HousePriceModel.load_model (PickleFile.pickle v) = Except.ok ⟨v⟩) ∧
    HousePriceModel.load_model PickleFile.corrupt = Except.error PyError.corruptState :=
  ⟨fun _ => rfl, rfl⟩

/-! ## Non-numeric strings are silently encoded, never rejected -/

/-- Preprocessing a one-cell column holding any string token: the token is
label-encoded to the integer code 0, recorded in the encoder table, and
standard-scaled to 0 — there is no error path. -/
theorem preprocess_lone_string_core (s : DataPreprocessor) (name tok : String) :
    (DataPreprocessor.preprocess s [(name, [Cell.str tok])]).1 = [(name, [(0 : ℝ)])] ∧
    lookupEnc (DataPreprocessor.preprocess s
      [(name, [Cell.str tok])]).2.label_encoders name = some [tok] := by
  have hm : colMean [(0 : ℝ)] = 0 := by norm_num [colMean]
  have hv : colVar [(0 : ℝ)] = 0 := by norm_num [colVar, hm]
  have hs : colScale [(0 : ℝ)] = 1 := by
    simp [colScale, hv, Real.sqrt_zero, handleZeros]
  constructor
  · simp [DataPreprocessor.preprocess, DataFrame.fillna, Cell.fill0, encodeColumns,
      Col.isObject, Cell.isStr, Cell.toPyStr, LabelEncoder.fit, insertSortedStr,
      LabelEncoder.transform, List.indexOf_cons_self, scaleColumns, scaleCol,
      Cell.toReal, hm, hs]
  · simp [DataPreprocessor.preprocess, DataFrame.fillna, Cell.fill0, encodeColumns,
      Col.isObject, Cell.isStr, Cell.toPyStr, LabelEncoder.fit, insertSortedStr,
      LabelEncoder.transform, lookupEnc_assocSet]

/-- Claim C8 (amended): preprocessing never fails fast on a literal string
that is not a valid number — any string token is silently label-encoded to
an integer code (a lone token becomes code 0, recorded per column) and then
scaled, for every preprocessor state; the GUI predict path feeds exactly
such strings into this coercion. -/
theorem preprocess_encodes_nonnumeric_strings (s : DataPreprocessor) (name tok : String) :
    (DataPreprocessor.preprocess s [(name, [Cell.str tok])]).1 = [(name, [(0 : ℝ)])] ∧
    lookupEnc (DataPreprocessor.preprocess s
      [(name, [Cell.str tok])]).2.label_encoders name = some [tok] :=
  preprocess_lone_string_core s name tok

/-- Claim C8 (counterexample): the literal non-numeric string abc in the
numeric column GrLivArea is not rejected with InvalidInput — preprocessing
silently encodes it to integer code 0 and scales it to 0. -/
theorem preprocess_string_silently_zeroed_counterexample :
    (DataPreprocessor.preprocess DataPreprocessor.init
        [(("GrLivArea"), [Cell.str ("abc")])]).1 = [(("GrLivArea"), [(0 : ℝ)])] ∧
    lookupEnc (DataPreprocessor.preprocess DataPreprocessor.init
        [(("GrLivArea"), [Cell.str ("abc")])]).2.label_encoders ("GrLivArea") =
      some [("abc")] :=
  preprocess_lone_string_core DataPreprocessor.init ("GrLivArea") ("abc")

/-! ## The GUI predict path zero-fills missing feature columns -/

/-- The encoding loop preserves the number of columns. -/
theorem encodeColumns_snd_length (df : DataFrame) :
    ∀ e, (encodeColumns e df).2.length = df.length := by
  induction df with
  | nil => intro e; rfl
  | cons p rest ih =>
    intro e
    cases h : Col.isObject p.2 <;> simp [encodeColumns, h, ih]

/-- `preprocess` preserves the number of columns. -/
theorem preprocess_fst_length (s : DataPreprocessor) (df : DataFrame) :
    (DataPreprocessor.preprocess s df).1.length = df.length := by
  simp [DataPreprocessor.preprocess, scaleColumns, encodeColumns_snd_length,
    DataFrame.fillna]

/-- Claim C9 (amended): for a model whose coefficient count matches the
declared feature columns, the GUI predict path always succeeds — feature
columns absent from the input row are silently appended with value 0 rather
than raising InvalidInput, whatever the preprocessor was fitted on. -/
theorem gui_predict_path_zero_fills_missing (coef : List ℝ) (b : ℝ)
    (pre : DataPreprocessor) (featureCols : List String)
    (inputData : List (String × Cell)) (hlen : coef.length = featureCols.length) :
    ∃ v, PredictionGUI.predictPath ⟨PyObj.linreg coef b⟩ pre featureCols inputData =
      Except.ok v := by
  have hcols : (reorderColumns featureCols
      (ensureColumns featureCols (buildInputDf inputData))).length = featureCols.length := by
    simp [reorderColumns]
  have hproc : (DataPreprocessor.preprocess pre (reorderColumns featureCols
      (ensureColumns featureCols (buildInputDf inputData)))).1.length = featureCols.length := by
    rw [preprocess_fst_length, hcols]
  have hlen3 : (DataPreprocessor.preprocess pre (reorderColumns featureCols
      (ensureColumns featureCols (buildInputDf inputData)))).1.length = coef.length :=
    hproc.trans hlen.symm
  have hpred : HousePriceModel.predict ⟨PyObj.linreg coef b⟩
      [(DataPreprocessor.preprocess pre (reorderColumns featureCols
        (ensureColumns featureCols (buildInputDf inputData)))).1.map
        (fun p => p.2.getD 0 0)] =
      Except.ok ([(DataPreprocessor.preprocess pre (reorderColumns featureCols
        (ensureColumns featureCols (buildInputDf inputData)))).1.map
        (fun p => p.2.getD 0 0)].map (fun r => dot coef r + b)) := by
    simp [HousePriceModel.predict, hlen3]
  refine ⟨(([(DataPreprocessor.preprocess pre (reorderColumns featureCols
      (ensureColumns featureCols (buildInputDf inputData)))).1.map
      (fun p => p.2.getD 0 0)].map (fun r => dot coef r + b)).getD 0 0), ?_⟩
  simp only [PredictionGUI.predictPath]
  rw [hpred]

/-- Witness for C9 (amended) at a single declared feature column and an
empty input row. -/
theorem gui_predict_path_zero_fills_missing_witness :
    ([(2 : ℝ)].length = [("GrLivArea")].length) ∧
    ∃ v, PredictionGUI.predictPath ⟨PyObj.linreg [(2 : ℝ)] 0⟩ DataPreprocessor.init
      [("GrLivArea")] [] = Except.ok v :=
  ⟨rfl, gui_predict_path_zero_fills_missing [(2 : ℝ)] 0 DataPreprocessor.init
    [("GrLivArea")] [] rfl⟩

/-- Claim C9 (counterexample): with a preprocessor fitted on GrLivArea and
BedroomAbvGr, a feature row lacking BedroomAbvGr does not raise
InvalidInput: the GUI path fills the column with 0 and returns a prediction
(here the model intercept, 7). -/
theorem gui_missing_column_defaulted_counterexample :
    PredictionGUI.predictPath ⟨PyObj.linreg [(1 : ℝ), 1] 7⟩
        ((DataPreprocessor.preprocess DataPreprocessor.init
          [(("GrLivArea"), [Cell.num 1000, Cell.num 2000]),
           (("BedroomAbvGr"), [Cell.num 2, Cell.num 4])]).2)
        [("GrLivArea"), ("BedroomAbvGr")]
        [(("GrLivArea"), Cell.num 3)] = Except.ok 7 := by
  have hdf : reorderColumns [("GrLivArea"), ("BedroomAbvGr")]
      (ensureColumns [("GrLivArea"), ("BedroomAbvGr")]
        (buildInputDf [(("GrLivArea"), Cell.num 3)])) =
      [(("GrLivArea"), [Cell.num 3]), (("BedroomAbvGr"), [Cell.num 0])] := by
    decide
  have henc : ∀ e, (encodeColumns e
      (DataFrame.fillna
        [(("GrLivArea"), [Cell.num 3]), (("BedroomAbvGr"), [Cell.num 0])])).2 =
      [(("GrLivArea"), [Cell.num 3]), (("BedroomAbvGr"), [Cell.num 0])] := by
    intro e
    rw [encodeColumns_snd_ind _ e []]
    decide
  have hm3 : colMean [(3 : ℝ)] = 3 := by norm_num [colMean]
  have hs3 : colScale [(3 : ℝ)] = 1 := by
    have hv : colVar [(3 : ℝ)] = 0 := by norm_num [colVar, hm3]
    simp [colScale, hv, Real.sqrt_zero, handleZeros]
  have hm0 : colMean [(0 : ℝ)] = 0 := by norm_num [colMean]
  have hs0 : colScale [(0 : ℝ)] = 1 := by
    have hv : colVar [(0 : ℝ)] = 0 := by norm_num [colVar, hm0]
    simp [colScale, hv, Real.sqrt_zero, handleZeros]
  have hscaled : (scaleColumns
      [(("GrLivArea"), [Cell.num 3]), (("BedroomAbvGr"), [Cell.num 0])]).1 =
      [(("GrLivArea"), [(0 : ℝ)]), (("BedroomAbvGr"), [(0 : ℝ)])] := by
    norm_num [scaleColumns, scaleCol, Cell.toReal, hm3, hs3, hm0, hs0]
  have hrow : ([(("GrLivArea"), [(0 : ℝ)]), (("BedroomAbvGr"), [(0 : ℝ)])].map
      (fun p => p.2.getD 0 0)) = [(0 : ℝ), 0] := by
    simp
  have hpred : HousePriceModel.predict ⟨PyObj.linreg [(1 : ℝ), 1] 7⟩ [[(0 : ℝ), 0]] =
      Except.ok [(7 : ℝ)] := by
    norm_num [HousePriceModel.predict, dot]
  generalize (DataPreprocessor.preprocess DataPreprocessor.init
      [(("GrLivArea"), [Cell.num 1000, Cell.num 2000]),
       (("BedroomAbvGr"), [Cell.num 2, Cell.num 4])]).2 = pre
  simp only [PredictionGUI.predictPath, DataPreprocessor.preprocess]
  rw [hdf, henc pre.label_encoders, hscaled, hrow, hpred]
  rfl

/-! ## main: the GUI construction arity -/

/-- Claim C10 (confirmed): `main` never reaches the interactive form — the
pipeline either fails before the split/fit (degenerate input), or reaches
the GUI-construction step, where calling `PredictionGUI(model,
preprocessor)` with two positional arguments against the three required by
`PredictionGUI.__init__` raises TypeError. -/
theorem main_gui_launch_raises_type_error (perm : Nat → List Nat) (df : DataFrame) :
    (∃ e, mainRun perm df = Except.error e) ∧
    ((("SalePrice") ∈ NumDataFrame.colNames
        (DataPreprocessor.preprocess DataPreprocessor.init df).1) →
      (dropCol ("SalePrice")
        (DataPreprocessor.preprocess DataPreprocessor.init df).1).length ≠ 0 →
      (perm (NumDataFrame.nRows (DataPreprocessor.preprocess DataPreprocessor.init df).1)).length -
        nTest (NumDataFrame.nRows (DataPreprocessor.preprocess DataPreprocessor.init df).1) ≠ 0 →
      mainRun perm df = Except.error PyError.typeError) := by
  by_cases hmem : ("SalePrice") ∈ NumDataFrame.colNames
      (DataPreprocessor.preprocess DataPreprocessor.init df).1
  · have hok : DataPreprocessor.prepare_data perm
        (DataPreprocessor.preprocess DataPreprocessor.init df).1 ("SalePrice") =
        Except.ok
          (selectRows ((perm (NumDataFrame.nRows
              (DataPreprocessor.preprocess DataPreprocessor.init df).1)).drop
                (nTest (NumDataFrame.nRows
                  (DataPreprocessor.preprocess DataPreprocessor.init df).1)))
            (dropCol ("SalePrice") (DataPreprocessor.preprocess DataPreprocessor.init df).1),
           selectRows ((perm (NumDataFrame.nRows
              (DataPreprocessor.preprocess DataPreprocessor.init df).1)).take
                (nTest (NumDataFrame.nRows
                  (DataPreprocessor.preprocess DataPreprocessor.init df).1)))
            (dropCol ("SalePrice") (DataPreprocessor.preprocess DataPreprocessor.init df).1),
           ((perm (NumDataFrame.nRows
              (DataPreprocessor.preprocess DataPreprocessor.init df).1)).drop
                (nTest (NumDataFrame.nRows
                  (DataPreprocessor.preprocess DataPreprocessor.init df).1))).map
            (fun i => (getCol ("SalePrice")
              (DataPreprocessor.preprocess DataPreprocessor.init df).1).getD i 0),
           ((perm (NumDataFrame.nRows
              (DataPreprocessor.preprocess DataPreprocessor.init df).1)).take
                (nTest (NumDataFrame.nRows
                  (DataPreprocessor.preprocess DataPreprocessor.init df).1))).map
            (fun i => (getCol ("SalePrice")
              (DataPreprocessor.preprocess DataPreprocessor.init df).1).getD i 0)) := by
      unfold DataPreprocessor.prepare_data
      rw [if_pos hmem]
    by_cases hfit : (selectRows ((perm (NumDataFrame.nRows
          (DataPreprocessor.preprocess DataPreprocessor.init df).1)).drop
            (nTest (NumDataFrame.nRows
              (DataPreprocessor.preprocess DataPreprocessor.init df).1)))
        (dropCol ("SalePrice")
          (DataPreprocessor.preprocess DataPreprocessor.init df).1)).length = 0 ∨
        (((perm (NumDataFrame.nRows
          (DataPreprocessor.preprocess DataPreprocessor.init df).1)).drop
            (nTest (NumDataFrame.nRows
              (DataPreprocessor.preprocess DataPreprocessor.init df).1))).map
          (fun i => (getCol ("SalePrice")
            (DataPreprocessor.preprocess DataPreprocessor.init df).1).getD i 0)).length = 0
    · refine ⟨⟨PyError.valueError, ?_⟩, ?_⟩
      · simp only [mainRun, hok, fitCheck]
        rw [if_pos hfit]
      · intro _ h2 h3
        exfalso
        rcases hfit with h | h
        · exact h2 (by simpa [selectRows] using h)
        · exact h3 (by simpa using h)
    · have hfitok : fitCheck
          (selectRows ((perm (NumDataFrame.nRows
              (DataPreprocessor.preprocess DataPreprocessor.init df).1)).drop
                (nTest (NumDataFrame.nRows
                  (DataPreprocessor.preprocess DataPreprocessor.init df).1)))
            (dropCol ("SalePrice") (DataPreprocessor.preprocess DataPreprocessor.init df).1))
          (((perm (NumDataFrame.nRows
              (DataPreprocessor.preprocess DataPreprocessor.init df).1)).drop
                (nTest (NumDataFrame.nRows
                  (DataPreprocessor.preprocess DataPreprocessor.init df).1))).map
            (fun i => (getCol ("SalePrice")
              (DataPreprocessor.preprocess DataPreprocessor.init df).1).getD i 0)) =
          Except.ok () := by
        unfold fitCheck
        rw [if_neg hfit]
      have hmain : mainRun perm df = Except.error PyError.typeError := by
        simp only [mainRun, hok]
        rw [hfitok]
        rfl
      exact ⟨⟨PyError.typeError, hmain⟩, fun _ _ _ => hmain⟩
  · have hne : DataPreprocessor.prepare_data perm
        (DataPreprocessor.preprocess DataPreprocessor.init df).1 ("SalePrice") =
        Except.error PyError.invalidInput := by
      unfold DataPreprocessor.prepare_data
      rw [if_neg hmem]
    refine ⟨⟨PyError.invalidInput, ?_⟩, fun h1 => absurd h1 hmem⟩
    simp only [mainRun, hne]

/-- Witness for C10 at a concrete five-row table whose pipeline reaches the
GUI-construction step. -/
theorem main_gui_launch_raises_type_error_witness :
    (("SalePrice") ∈ NumDataFrame.colNames
        (DataPreprocessor.preprocess DataPreprocessor.init
          [(("GrLivArea"), [Cell.num 1, Cell.num 2, Cell.num 3, Cell.num 4, Cell.num 5]),
           (("SalePrice"), [Cell.num 1, Cell.num 2, Cell.num 3, Cell.num 4, Cell.num 5])]).1 ∧
      (dropCol ("SalePrice")
        (DataPreprocessor.preprocess DataPreprocessor.init
          [(("GrLivArea"), [Cell.num 1, Cell.num 2, Cell.num 3, Cell.num 4, Cell.num 5]),
           (("SalePrice"), [Cell.num 1, Cell.num 2, Cell.num 3, Cell.num 4, Cell.num 5])]).1).length ≠ 0 ∧
      ((fun n => List.range n) (NumDataFrame.nRows
          (DataPreprocessor.preprocess DataPreprocessor.init
            [(("GrLivArea"), [Cell.num 1, Cell.num 2, Cell.num 3, Cell.num 4, Cell.num 5]),
             (("SalePrice"), [Cell.num 1, Cell.num 2, Cell.num 3, Cell.num 4, Cell.num 5])]).1)).length -
        nTest (NumDataFrame.nRows
          (DataPreprocessor.preprocess DataPreprocessor.init
            [(("GrLivArea"), [Cell.num 1, Cell.num 2, Cell.num 3, Cell.num 4, Cell.num 5]),
             (("SalePrice"), [Cell.num 1, Cell.num 2, Cell.num 3, Cell.num 4, Cell.num 5])]).1) ≠ 0) ∧
    mainRun (fun n => List.range n)
      [(("GrLivArea"), [Cell.num 1, Cell.num 2, Cell.num 3, Cell.num 4, Cell.num 5]),
       (("SalePrice"), [Cell.num 1, Cell.num 2, Cell.num 3, Cell.num 4, Cell.num 5])] =
      Except.error PyError.typeError := by
  have hP : (DataPreprocessor.preprocess DataPreprocessor.init
      [(("GrLivArea"), [Cell.num 1, Cell.num 2, Cell.num 3, Cell.num 4, Cell.num 5]),
       (("SalePrice"), [Cell.num 1, Cell.num 2, Cell.num 3, Cell.num 4, Cell.num 5])]).1 =
      [(("GrLivArea"), scaleCol
          ([Cell.num 1, Cell.num 2, Cell.num 3, Cell.num 4, Cell.num 5].map Cell.toReal)),
       (("SalePrice"), scaleCol
          ([Cell.num 1, Cell.num 2, Cell.num 3, Cell.num 4, Cell.num 5].map Cell.toReal))] := by
    have henc : (encodeColumns (DataPreprocessor.init).label_encoders
        (DataFrame.fillna
          [(("GrLivArea"), [Cell.num 1, Cell.num 2, Cell.num 3, Cell.num 4, Cell.num 5]),
           (("SalePrice"), [Cell.num 1, Cell.num 2, Cell.num 3, Cell.num 4, Cell.num 5])])).2 =
        [(("GrLivArea"), [Cell.num 1, Cell.num 2, Cell.num 3, Cell.num 4, Cell.num 5]),
         (("SalePrice"), [Cell.num 1, Cell.num 2, Cell.num 3, Cell.num 4, Cell.num 5])] := by
      decide
    simp only [DataPreprocessor.preprocess]
    rw [henc]
    rfl
  have h1 : ("SalePrice") ∈ NumDataFrame.colNames
      (DataPreprocessor.preprocess DataPreprocessor.init
        [(("GrLivArea"), [Cell.num 1, Cell.num 2, Cell.num 3, Cell.num 4, Cell.num 5]),
         (("SalePrice"), [Cell.num 1, Cell.num 2, Cell.num 3, Cell.num 4, Cell.num 5])]).1 := by
    rw [hP]
    simp [NumDataFrame.colNames]
  have h2 : (dropCol ("SalePrice")
      (DataPreprocessor.preprocess DataPreprocessor.init
        [(("GrLivArea"), [Cell.num 1, Cell.num 2, Cell.num 3, Cell.num 4, Cell.num 5]),
         (("SalePrice"), [Cell.num 1, Cell.num 2, Cell.num 3, Cell.num 4, Cell.num 5])]).1).length ≠ 0 := by
    rw [hP]
    simp [dropCol]
  have h3 : ((fun n => List.range n) (NumDataFrame.nRows
        (DataPreprocessor.preprocess DataPreprocessor.init
          [(("GrLivArea"), [Cell.num 1, Cell.num 2, Cell.num 3, Cell.num 4, Cell.num 5]),
           (("SalePrice"), [Cell.num 1, Cell.num 2, Cell.num 3, Cell.num 4, Cell.num 5])]).1)).length -
      nTest (NumDataFrame.nRows
        (DataPreprocessor.preprocess DataPreprocessor.init
          [(("GrLivArea"), [Cell.num 1, Cell.num 2, Cell.num 3, Cell.num 4, Cell.num 5]),
           (("SalePrice"), [Cell.num 1, Cell.num 2, Cell.num 3, Cell.num 4, Cell.num 5])]).1) ≠ 0 := by
    rw [hP]
    simp [NumDataFrame.nRows, scaleCol, nTest]
  exact ⟨⟨h1, h2, h3⟩,
    (main_gui_launch_raises_type_error (fun n => List.range n)
      [(("GrLivArea"), [Cell.num 1, Cell.num 2, Cell.num 3, Cell.num 4, Cell.num 5]),
       (("SalePrice"), [Cell.num 1, Cell.num 2, Cell.num 3, Cell.num 4, Cell.num 5])]).2 h1 h2 h3⟩

end HousePrice
